import Mathlib

/-!
Verification of the speed-overlay pipeline (src/main.py) against its
natural-language specification.

Modelling conventions (shallow embedding):
* Python floats and `datetime` instants are modelled as exact rationals (`ℚ`);
  absolute timestamps are seconds since an arbitrary epoch.  Differences of
  `datetime` values (`total_seconds()`) are exact rational differences.
* One piece of Python numeric behaviour is modelled exactly because the code's
  observable output depends on it: `datetime.timedelta(seconds=x)` stores a
  whole number of microseconds, rounding fractional microseconds to the
  nearest integer with a half-to-even tie-break (documented CPython
  behaviour).  `timedelta` arithmetic itself (addition, scaling by an
  integer) is exact integer arithmetic on microseconds.
* The external collaborators (the `geopy` geodesic distance, the `gpxpy`
  parser, the `ffprobe` subprocess calls) are modelled as parameters: the
  distance function is an argument `dist`, and each probe/parse result is an
  `Except`/value argument describing what the collaborator returned.
* Fallible Python code (uncaught exceptions) is modelled with `Except`;
  functions that cannot raise are total Lean functions.
-/

/-- GPS sample as built by `load_gpx`: a dict with keys `time`, `lat`, `lon`.
The timestamp is absolute seconds (exact rational). -/
structure GpxPoint where
  time : ℚ
  lat : ℚ
  lon : ℚ
deriving DecidableEq, Repr

/-- Line 86 of main.py:
`nearby = [p for p in points if abs((p['time'] - target_time).total_seconds()) <= time_window]`. -/
def nearbyPoints (points : List GpxPoint) (target_time : ℚ) (time_window : ℚ) :
    List GpxPoint :=
  points.filter fun p => decide (|p.time - target_time| ≤ time_window)

/-- Sum of the consecutive-pair time differences accumulated by the loop in
lines 91-95 of main.py (`times` list) and summed at line 97 (`total_time`). -/
def segTimes (l : List GpxPoint) : ℚ :=
  ((l.zip l.tail).map fun ab => ab.2.time - ab.1.time).sum

/-- Sum of the consecutive-pair geodesic distances accumulated by the loop in
lines 91-95 of main.py (`distances`) and summed at line 96 (`total_distance`);
the external geodesic calculator is the parameter `dist`. -/
def segDists (dist : GpxPoint → GpxPoint → ℚ) (l : List GpxPoint) : ℚ :=
  ((l.zip l.tail).map fun ab => dist ab.1 ab.2).sum

/-- Lines 85-100 of main.py, `get_speed(points, target_time, time_window=10,
min_points=2)`.  `min_points` is an `int` argparse option, hence `ℤ`.  The
result is `Option ℚ` (`None` = unavailable). -/
def get_speed (dist : GpxPoint → GpxPoint → ℚ) (points : List GpxPoint)
    (target_time : ℚ) (time_window : ℚ) (min_points : ℤ) : Option ℚ :=
  let nearby := nearbyPoints points target_time time_window
  if (nearby.length : ℤ) < min_points then none
  else
    let total_distance := segDists dist nearby
    let total_time := segTimes nearby
    if total_time = 0 then none
    else some ((total_distance / total_time) * (36 / 10))

/-- Lines 103-108 of main.py, `convert_speed(speed, units)`. -/
def convert_speed (speed : Option ℚ) (units : String) : Option ℚ :=
  match speed with
  | none => none
  | some s => if units = "mph" then some (s * (621371 / 1000000)) else some s

/-- Python `x % d` on floats for a positive divisor `d` (exact-rational
semantics): the representative of `x` modulo `d` in `[0, d)`. -/
def pymod (x d : ℚ) : ℚ := x - d * ⌊x / d⌋

/-- Line 112 of main.py, `h = int(seconds // 3600)`: Python float `//` floors. -/
def fmtH (seconds : ℚ) : ℤ := ⌊seconds / 3600⌋

/-- Line 113 of main.py, `m = int((seconds % 3600) // 60)`. -/
def fmtM (seconds : ℚ) : ℤ := ⌊pymod seconds 3600 / 60⌋

/-- Line 114 of main.py, `s = int(seconds % 60)`: the remainder lies in
`[0, 60)`, so `int` truncation is the floor. -/
def fmtS (seconds : ℚ) : ℤ := ⌊pymod seconds 60⌋

/-- Line 115 of main.py, `cs = int((seconds % 1) * 100)`: the remainder lies
in `[0, 1)`, so the product lies in `[0, 100)` and `int` truncation is the
floor. -/
def fmtCS (seconds : ℚ) : ℤ := ⌊pymod seconds 1 * 100⌋

/-- Python format spec `{n:02}`: zero-pad to width 2 (sign-aware; only the
single-digit nonnegative case gains a leading zero). -/
def pad2 (n : ℤ) : String := if 0 ≤ n ∧ n < 10 then "0" ++ toString n else toString n

/-- Lines 111-116 of main.py, `format_ass_timestamp(seconds)`:
`f"{h}:{m:02}:{s:02}.{cs:02}"`. -/
def format_ass_timestamp (seconds : ℚ) : String :=
  toString (fmtH seconds) ++ ":" ++ pad2 (fmtM seconds) ++ ":" ++
    pad2 (fmtS seconds) ++ "." ++ pad2 (fmtCS seconds)

/-- Round to the nearest integer, ties to even: the rounding CPython applies
to fractional microseconds in `timedelta(seconds=...)`. -/
def roundHalfEven (q : ℚ) : ℤ :=
  let f : ℤ := ⌊q⌋
  let r : ℚ := q - f
  if r < 1 / 2 then f
  else if 1 / 2 < r then f + 1
  else if f % 2 = 0 then f else f + 1

/-- Microsecond content of `timedelta(seconds=interval)` with
`interval = 1 / fps` (lines 142 and 154/159 of main.py): `timedelta` stores
whole microseconds, rounding half-to-even. -/
def tdUs (fps : ℚ) : ℤ := roundHalfEven (1 / fps * 1000000)

/-- Start offset of frame `i` in seconds: after `i` iterations of
`current += timedelta(seconds=interval)` (line 159), `current - start_time`
is exactly `i * tdUs fps` microseconds. -/
def frameOffset (fps : ℚ) (i : ℕ) : ℚ := (((i : ℤ) * tdUs fps : ℤ) : ℚ) / 1000000

/-- End offset of frame `i`: `current - start_time + timedelta(seconds=interval)`
(line 154). -/
def frameEndOffset (fps : ℚ) (i : ℕ) : ℚ :=
  (((i : ℤ) * tdUs fps + tdUs fps : ℤ) : ℚ) / 1000000

/-- Number of iterations of the `while frame * interval < duration` loop
(line 145 of main.py), with `interval = 1 / fps`: the loop body runs for
`frame = 0, 1, ...` while the condition holds, and for positive `fps` the
condition `frame / fps < duration` holds exactly for `frame < ⌈duration * fps⌉`
(theorem `numFrames_loop_iff`). -/
def numFrames (fps duration : ℚ) : ℕ := (⌈duration * fps⌉).toNat

/-- Python `f"{speed:.1f}"`: round to one decimal (half-to-even in exact
semantics) and print with one digit after the point. -/
def fmt1 (q : ℚ) : String :=
  let n : ℤ := roundHalfEven (q * 10)
  let a : ℕ := n.natAbs
  (if n < 0 then "-" else "") ++ toString (a / 10) ++ "." ++ toString (a % 10)

/-- Lines 148-151 of main.py: the display text of a cue. -/
def speedText (speed : Option ℚ) (units : String) : String :=
  match speed with
  | some v => "Speed: " ++ fmt1 v ++ " " ++ units
  | none => "Speed: N/A"

/-- One timed subtitle cue: the two formatted timestamps and the display
text interpolated into the `Dialogue:` line at line 156 of main.py. -/
structure Cue where
  startTs : String
  endTs : String
  text : String
deriving DecidableEq, Repr

/-- Body of one iteration of the per-frame loop (lines 145-159 of main.py):
the cue emitted for frame `i`.  `target` is `current = start_time + i` steps
of the microsecond-quantized interval. -/
def mkCue (dist : GpxPoint → GpxPoint → ℚ) (points : List GpxPoint)
    (start_time fps : ℚ) (units : String) (min_points : ℤ) (i : ℕ) : Cue :=
  let target := start_time + frameOffset fps i
  let speed := convert_speed (get_speed dist points target 10 min_points) units
  { startTs := format_ass_timestamp (frameOffset fps i)
    endTs := format_ass_timestamp (frameEndOffset fps i)
    text := speedText speed units }

/-- Lines 141-161 of main.py: the ordered list of dialogue cues produced by
`generate_ass` (the header block carries no cues and is omitted). -/
def generate_ass_events (dist : GpxPoint → GpxPoint → ℚ) (points : List GpxPoint)
    (start_time fps duration : ℚ) (units : String) (min_points : ℤ) : List Cue :=
  (List.range (numFrames fps duration)).map (mkCue dist points start_time fps units min_points)

/-- Line 156 of main.py: serialization of one cue as a `Dialogue:` event. -/
def dialogueLine (c : Cue) : String :=
  "Dialogue: 0," ++ c.startTs ++ "," ++ c.endTs ++ ",Default,,0,0,0,," ++ c.text

/-- Failure classifications observable from `main` (spec taxonomy plus the
raw Python exceptions the code actually raises): `parseError` models the
`gpxpy` parse exception propagating out of `load_gpx` (line 75),
`indexError` models `gpx_points[0]` on an empty list (line 202). -/
inductive RunError where
  | parseError (msg : String)
  | indexError
deriving DecidableEq, Repr

/-- Check whether a failure is classified as a parse error. -/
def isParseErr (e : RunError) : Bool :=
  match e with
  | .parseError _ => true
  | _ => false

/-- Lines 73-82 of main.py, `load_gpx`: the external `gpxpy` collaborator's
outcome is the parameter (`.error msg` = it raised a parse exception, which
propagates uncaught; `.ok pts` = the extracted point list in document
order).  The code then sorts by timestamp (`points.sort`, stable). -/
def load_gpx (parsed : Except String (List GpxPoint)) :
    Except RunError (List GpxPoint) :=
  match parsed with
  | .error msg => .error (.parseError msg)
  | .ok pts => .ok (pts.mergeSort fun a b => decide (a.time ≤ b.time))

/-- Lines 199-203 of main.py: resolution of the video start time.  With an
explicit `--video_date` the parsed date is used; otherwise
`gpx_points[0]['time']` raises `IndexError` on an empty point list.  The
`--time_delta` offset is then added. -/
def resolveStartTime (videoDate : Option ℚ) (timeDelta : ℚ)
    (gpx_points : List GpxPoint) : Except RunError ℚ :=
  match videoDate with
  | some d => .ok (d + timeDelta)
  | none =>
    match gpx_points with
    | [] => .error .indexError
    | p :: _ => .ok (p.time + timeDelta)

/-- Video metadata record returned by `get_video_info` (lines 39-44 of
main.py). -/
structure VideoInfo where
  width : ℤ
  height : ℤ
  fps : ℚ
  duration : ℚ
deriving DecidableEq, Repr

/-- Lines 10-44 of main.py, `get_video_info`: the primary metadata probe.
The two `ffprobe` subprocess outcomes are parameters (`streamProbe` carries
width, height and the parsed `num/denom` frame rate; `durationProbe` the
parsed duration).  There is no `try` here: any probe failure propagates
(fatal), as does a `ZeroDivisionError` from `num / denom`. -/
def get_video_info (streamProbe : Except String (ℤ × ℤ × ℤ × ℤ))
    (durationProbe : Except String ℚ) : Except String VideoInfo :=
  match streamProbe with
  | .error e => .error e
  | .ok (w, h, num, denom) =>
    if denom = 0 then .error "ZeroDivisionError"
    else
      match durationProbe with
      | .error e => .error e
      | .ok dur => .ok ⟨w, h, (num : ℚ) / (denom : ℚ), dur⟩

/-- Lines 176-186 of main.py, `get_video_fps`: the whole body is wrapped in
`try`; on any failure (probe error, or `ZeroDivisionError` from a zero
denominator) the code prints an error message and returns the default 30.0.
The `Bool` component records whether the warning path was taken. -/
def get_video_fps (probed : Except String (ℤ × ℤ)) : ℚ × Bool :=
  match probed with
  | .error _ => (30, true)
  | .ok (num, denom) =>
    if denom = 0 then (30, true)
    else ((num : ℚ) / (denom : ℚ), false)

/-- The loop condition of line 145 of main.py holds at frame `i` iff
`i < numFrames`: `numFrames` is exactly the number of frames the
`while frame * interval < duration` loop emits. -/
theorem numFrames_loop_iff (fps duration : ℚ) (hfps : 0 < fps) (i : ℕ) :
    (i : ℚ) * (1 / fps) < duration ↔ i < numFrames fps duration := by
  rw [numFrames, Int.lt_toNat, Int.lt_ceil]
  rw [mul_one_div, div_lt_iff₀ hfps]
  exact Iff.rfl

/-- Computation rule for `segTimes` on a list with at least two elements. -/
theorem segTimes_cons_cons (a b : GpxPoint) (t : List GpxPoint) :
    segTimes (a :: b :: t) = (b.time - a.time) + segTimes (b :: t) := by
  simp [segTimes]

/-- Computation rule for `segDists` on a list with at least two elements. -/
theorem segDists_cons_cons (dist : GpxPoint → GpxPoint → ℚ) (a b : GpxPoint)
    (t : List GpxPoint) :
    segDists dist (a :: b :: t) = dist a b + segDists dist (b :: t) := by
  simp [segDists]

/-- Lists with at most one element have no consecutive pair, so the summed
elapsed time is zero. -/
theorem segTimes_of_short (l : List GpxPoint) (h : l.length ≤ 1) :
    segTimes l = 0 := by
  match l, h with
  | [], _ => rfl
  | [a], _ => rfl

/-- On a time-sorted list the summed elapsed time is nonnegative. -/
theorem segTimes_nonneg (l : List GpxPoint)
    (h : l.Chain' fun a b => a.time ≤ b.time) : 0 ≤ segTimes l :=
  match l, h with
  | [], _ => le_refl 0
  | [_], _ => le_refl 0
  | a :: b :: t, h => by
    rw [segTimes_cons_cons]
    rcases List.chain'_cons.mp h with ⟨hab, h'⟩
    have ih := segTimes_nonneg (b :: t) h'
    linarith

/-- When every geodesic distance is nonnegative, the summed distance is
nonnegative. -/
theorem segDists_nonneg (dist : GpxPoint → GpxPoint → ℚ)
    (hd : ∀ a b, 0 ≤ dist a b) (l : List GpxPoint) : 0 ≤ segDists dist l :=
  match l with
  | [] => le_refl 0
  | [_] => le_refl 0
  | a :: b :: t => by
    rw [segDists_cons_cons]
    have ih := segDists_nonneg dist hd (b :: t)
    have := hd a b
    linarith

/-- Remainders taken with a positive divisor are nonnegative. -/
theorem pymod_nonneg (x d : ℚ) (hd : 0 < d) : 0 ≤ pymod x d := by
  have h1 : (⌊x / d⌋ : ℚ) ≤ x / d := Int.floor_le _
  have h2 : x / d * d = x := div_mul_cancel₀ x (ne_of_gt hd)
  rw [pymod]
  nlinarith

/-- Remainders taken with a positive divisor are below the divisor. -/
theorem pymod_lt (x d : ℚ) (hd : 0 < d) : pymod x d < d := by
  have h1 : x / d < ⌊x / d⌋ + 1 := Int.lt_floor_add_one _
  have h2 : x / d * d = x := div_mul_cancel₀ x (ne_of_gt hd)
  rw [pymod]
  nlinarith

/-- Taking a remainder modulo `b` after a remainder modulo a multiple of `b`
is the same as the remainder modulo `b` alone. -/
theorem pymod_pymod (s b : ℚ) (k : ℤ) (hb : b ≠ 0) :
    pymod (pymod s (b * k)) b = pymod s b := by
  rw [pymod, pymod, pymod]
  have hcast : (s - b * k * ⌊s / (b * k)⌋) / b = s / b - ((k * ⌊s / (b * k)⌋ : ℤ) : ℚ) := by
    push_cast
    field_simp
    ring
  rw [hcast, Int.floor_sub_int]
  push_cast
  ring

/-- Remainder modulo 1 is the fractional part. -/
theorem pymod_one (s : ℚ) : pymod s 1 = s - ⌊s⌋ := by
  rw [pymod, div_one, one_mul]

/-- Rounding half-to-even moves a value by at most one half. -/
theorem roundHalfEven_err (q : ℚ) : |(roundHalfEven q : ℚ) - q| ≤ 1 / 2 := by
  have h1 : (⌊q⌋ : ℚ) ≤ q := Int.floor_le q
  have h2 : q < ⌊q⌋ + 1 := Int.lt_floor_add_one q
  rw [roundHalfEven]
  split_ifs with ha hb hc <;> rw [abs_le] <;> constructor <;> push_cast <;> linarith

/-- C1.  The claim says: whenever at least `min_points` samples lie in the
window, `get_speed` returns a numeric value.  This fails when the selected
samples all share one timestamp: here two samples (identical coordinates
and timestamps, so any geodesic distance function agrees with the constant
zero used) lie in the window and `min_points = 2` is met, yet `get_speed`
returns `none` through the zero-elapsed-time branch of line 98. -/
theorem get_speed_counterexample_dup_times :
    2 ≤ ((nearbyPoints [⟨0, 0, 0⟩, ⟨0, 0, 0⟩] 0 10).length : ℤ) ∧
      get_speed (fun _ _ => 0) [⟨0, 0, 0⟩, ⟨0, 0, 0⟩] 0 10 2 = none := by
  constructor
  · norm_num [nearbyPoints, List.filter]
  · norm_num [get_speed, nearbyPoints, List.filter, segTimes, segDists]

/-- C1 (amended).  For a time-sorted track and a nonnegative distance
function: if at least `min_points` samples lie in the window and the summed
elapsed time over consecutive selected pairs is nonzero, `get_speed`
returns a numeric value `≥ 0`; if fewer than `min_points` samples lie in
the window it returns `none` (unavailable). -/
theorem get_speed_spec (dist : GpxPoint → GpxPoint → ℚ) (points : List GpxPoint)
    (target_time time_window : ℚ) (min_points : ℤ)
    (hsorted : points.Pairwise fun a b => a.time ≤ b.time)
    (hdist : ∀ a b, 0 ≤ dist a b) :
    (min_points ≤ ((nearbyPoints points target_time time_window).length : ℤ) ∧
        segTimes (nearbyPoints points target_time time_window) ≠ 0 →
      ∃ v, get_speed dist points target_time time_window min_points = some v ∧ 0 ≤ v) ∧
    (((nearbyPoints points target_time time_window).length : ℤ) < min_points →
      get_speed dist points target_time time_window min_points = none) := by
  have hnb : (nearbyPoints points target_time time_window).Pairwise
      fun a b => a.time ≤ b.time :=
    hsorted.sublist (List.filter_sublist points)
  constructor
  · rintro ⟨hc, ht⟩
    refine ⟨segDists dist (nearbyPoints points target_time time_window) /
      segTimes (nearbyPoints points target_time time_window) * (36 / 10), ?_, ?_⟩
    · simp only [get_speed]
      rw [if_neg (not_lt.mpr hc), if_neg ht]
    · have hd0 : 0 ≤ segDists dist (nearbyPoints points target_time time_window) :=
        segDists_nonneg dist hdist _
      have ht0 : 0 ≤ segTimes (nearbyPoints points target_time time_window) :=
        segTimes_nonneg _ hnb.chain'
      positivity
  · intro h
    simp only [get_speed]
    rw [if_pos h]

/-- C1 (amended) witness: a sorted two-sample track 5 seconds apart with
the constant-zero distance; both samples lie in the window, the elapsed
time is 5, and the estimate is present and nonnegative; a lone sample is
below `min_points = 2` and yields `none`. -/
theorem get_speed_spec_witness :
    (∃ v, get_speed (fun _ _ => 0) [⟨0, 0, 0⟩, ⟨5, 1, 1⟩] 0 10 2 = some v ∧ 0 ≤ v) ∧
      get_speed (fun _ _ => 0) [⟨0, 0, 0⟩, ⟨5, 1, 1⟩] 7 (1 / 2) 2 = none := by
  constructor
  · exact (get_speed_spec (fun _ _ => 0) [⟨0, 0, 0⟩, ⟨5, 1, 1⟩] 0 10 2
      (by norm_num [List.pairwise_cons]) (fun _ _ => le_refl 0)).1
      ⟨by norm_num [nearbyPoints, List.filter],
        by norm_num [nearbyPoints, List.filter, segTimes]⟩
  · exact (get_speed_spec (fun _ _ => 0) [⟨0, 0, 0⟩, ⟨5, 1, 1⟩] 7 (1 / 2) 2
      (by norm_num [List.pairwise_cons]) (fun _ _ => le_refl 0)).2
      (by norm_num [nearbyPoints, List.filter])

/-- C2.  Whenever the summed elapsed time over consecutive selected pairs
is exactly zero, `get_speed` returns `none`; the division at line 100 is
guarded by the check at line 98, and the function is total (never raises)
for every input. -/
theorem get_speed_zero_elapsed (dist : GpxPoint → GpxPoint → ℚ)
    (points : List GpxPoint) (target_time time_window : ℚ) (min_points : ℤ)
    (h : segTimes (nearbyPoints points target_time time_window) = 0) :
    get_speed dist points target_time time_window min_points = none := by
  simp only [get_speed]
  split_ifs with h1 <;> rfl

/-- C2 witness: two samples sharing timestamp 0 at different coordinates,
both in the window; the elapsed time is zero and the estimate is `none`. -/
theorem get_speed_zero_elapsed_witness :
    segTimes (nearbyPoints [⟨0, 0, 0⟩, ⟨0, 1, 1⟩] 0 10) = 0 ∧
      get_speed (fun _ _ => 100) [⟨0, 0, 0⟩, ⟨0, 1, 1⟩] 0 10 2 = none := by
  have h : segTimes (nearbyPoints [⟨0, 0, 0⟩, ⟨0, 1, 1⟩] 0 10) = 0 := by
    norm_num [nearbyPoints, List.filter, segTimes]
  exact ⟨h, get_speed_zero_elapsed (fun _ _ => 100) [⟨0, 0, 0⟩, ⟨0, 1, 1⟩] 0 10 2 h⟩

/-- C3.  Unit conversion: `none` (unavailable) is preserved for every unit,
a present value is multiplied by exactly 0.621371 for `mph`, and is
returned unchanged for `km/h`. -/
theorem convert_speed_spec :
    (∀ u : String, convert_speed none u = none) ∧
      (∀ s : ℚ, convert_speed (some s) "mph" = some (s * (621371 / 1000000))) ∧
      (∀ s : ℚ, convert_speed (some s) "km/h" = some s) :=
  ⟨fun _ => rfl, fun _ => rfl, fun _ => rfl⟩

/-- C10.  With at most one sample in the window there is no consecutive
pair, so regardless of `min_points` (including 1, 0 or negative values)
`get_speed` returns `none`: either the count check of line 87 fires, or
the empty pair loop leaves `total_time = 0` and the check of line 98
fires.  The function is total in the embedding, so no exception occurs. -/
theorem get_speed_sparse_none (dist : GpxPoint → GpxPoint → ℚ)
    (points : List GpxPoint) (target_time time_window : ℚ) (min_points : ℤ)
    (h : (nearbyPoints points target_time time_window).length ≤ 1) :
    get_speed dist points target_time time_window min_points = none := by
  have h0 := segTimes_of_short _ h
  simp only [get_speed]
  split_ifs with h1 <;> rfl

/-- C10 witness: with `min_points = 1` a window holding a single sample
still yields `none`, and with `min_points = 0` an empty window yields
`none`. -/
theorem get_speed_sparse_none_witness :
    (nearbyPoints [⟨0, 0, 0⟩] 0 10).length ≤ 1 ∧
      get_speed (fun _ _ => 0) [⟨0, 0, 0⟩] 0 10 1 = none ∧
      get_speed (fun _ _ => 0) [] 0 10 0 = none := by
  have h : (nearbyPoints [⟨0, 0, 0⟩] 0 10).length ≤ 1 := by
    norm_num [nearbyPoints, List.filter]
  exact ⟨h, get_speed_sparse_none (fun _ _ => 0) [⟨0, 0, 0⟩] 0 10 1 h,
    get_speed_sparse_none (fun _ _ => 0) [] 0 10 0 (by norm_num [nearbyPoints])⟩

/-- C7.  The window query (line 86 of main.py) returns exactly the samples
whose timestamp differs from the target by at most the window (inclusive
boundary), and on a time-sorted track the result is again in ascending
timestamp order (the filter preserves the track order and the track
itself; the embedding is a pure function, so there are no side effects). -/
theorem pointsWithin_spec (points : List GpxPoint) (target_time time_window : ℚ)
    (hsorted : points.Pairwise fun a b => a.time ≤ b.time) :
    (∀ p, p ∈ nearbyPoints points target_time time_window ↔
        p ∈ points ∧ |p.time - target_time| ≤ time_window) ∧
      (nearbyPoints points target_time time_window).Pairwise
        fun a b => a.time ≤ b.time := by
  constructor
  · intro p
    simp [nearbyPoints, List.mem_filter]
  · exact hsorted.sublist (List.filter_sublist points)

/-- C7 witness: on a sorted two-sample track, membership of the second
sample in the window selection is equivalent to the boundary predicate, and
the selection is sorted. -/
theorem pointsWithin_spec_witness :
    ((⟨5, 1, 1⟩ : GpxPoint) ∈ nearbyPoints [⟨0, 0, 0⟩, ⟨5, 1, 1⟩] 0 10 ↔
        (⟨5, 1, 1⟩ : GpxPoint) ∈ [(⟨0, 0, 0⟩ : GpxPoint), ⟨5, 1, 1⟩] ∧
          |(⟨5, 1, 1⟩ : GpxPoint).time - 0| ≤ 10) ∧
      (nearbyPoints [⟨0, 0, 0⟩, ⟨5, 1, 1⟩] 0 10).Pairwise
        fun a b => a.time ≤ b.time := by
  have h := pointsWithin_spec [⟨0, 0, 0⟩, ⟨5, 1, 1⟩] 0 10
    (by norm_num [List.pairwise_cons])
  exact ⟨h.1 ⟨5, 1, 1⟩, h.2⟩

/-- C8 counterexample.  The claim says a GPX input yielding no samples
fails with a ParseError classification.  In the code an empty (but
well-formed) GPX passes `load_gpx` untouched, and the failure only occurs
later at `gpx_points[0]` (line 202), which is an IndexError, not a parse
error. -/
theorem empty_gpx_counterexample :
    load_gpx (.ok []) = .ok [] ∧
      resolveStartTime none 0 [] = .error .indexError ∧
      isParseErr .indexError = false :=
  ⟨by simp [load_gpx], rfl, rfl⟩

/-- C8 (amended).  A malformed GPX (the external parser raised) surfaces
as a ParseError immediately, before any output; but an empty GPX is not
rejected by `load_gpx`: with no explicit video date the run later fails
with an IndexError when resolving the start time (line 202), and with an
explicit video date it proceeds without any error. -/
theorem gpx_error_paths :
    (∀ msg, load_gpx (.error msg) = .error (.parseError msg)) ∧
      load_gpx (.ok []) = .ok [] ∧
      (∀ td : ℚ, resolveStartTime none td [] = .error .indexError) ∧
      (∀ d td : ℚ, resolveStartTime (some d) td [] = .ok (d + td)) :=
  ⟨fun _ => rfl, by simp [load_gpx], fun _ => rfl, fun _ _ => rfl⟩

/-- C9.  When the frame-rate probe fails (or its `num/denom` parse divides
by zero), `get_video_fps` substitutes the default 30 fps and surfaces a
warning (the `true` flag) instead of aborting; a successful probe is used
as-is with no warning.  The leniency is asymmetric: a failure of the
primary metadata probe propagates out of `get_video_info` (fatal). -/
theorem fps_fallback_spec :
    (∀ e, get_video_fps (.error e) = (30, true)) ∧
      (∀ num denom : ℤ, denom ≠ 0 →
        get_video_fps (.ok (num, denom)) = ((num : ℚ) / (denom : ℚ), false)) ∧
      (∀ e durationProbe, get_video_info (.error e) durationProbe = .error e) := by
  refine ⟨fun _ => rfl, fun num denom h => ?_, fun _ _ => rfl⟩
  simp [get_video_fps, h]

/-- C9 witness: a failed probe yields the 30 fps default with a warning, a
successful `30000/1001` probe yields the exact rational with no warning,
and a failed primary probe is propagated. -/
theorem fps_fallback_spec_witness :
    get_video_fps (.error "probe failed") = (30, true) ∧
      get_video_fps (.ok (30000, 1001)) = ((30000 : ℚ) / (1001 : ℚ), false) ∧
      get_video_info (.error "probe failed") (.ok 1) = .error "probe failed" :=
  ⟨fps_fallback_spec.1 "probe failed",
    fps_fallback_spec.2.1 30000 1001 (by norm_num),
    fps_fallback_spec.2.2 "probe failed" (.ok 1)⟩

/-- Microsecond quantization at 29.97 fps: the true frame interval is
33366.7000... microseconds, which `timedelta` rounds up to 33367. -/
theorem tdUs_2997 : tdUs (2997 / 100) = 33367 := by
  rw [tdUs, roundHalfEven]
  norm_num

/-- C4 counterexample.  At `fps = 29.97` and `duration = 1` (both positive)
frame 4 exists (the loop emits 30 frames), yet its start offset
`4 × 33367 µs = 0.133468 s` differs from `4 / fps = 0.1334668001... s` by
about 1.2 µs, beyond the claimed one-microsecond tolerance: the repeated
addition of the microsecond-quantized `timedelta` drifts linearly. -/
theorem frame_timeline_counterexample :
    (0 : ℚ) < 1 ∧ (0 : ℚ) < 2997 / 100 ∧ 4 < numFrames (2997 / 100) 1 ∧
      ¬|frameOffset (2997 / 100) 4 - (4 : ℚ) / (2997 / 100)| ≤ 1 / 1000000 := by
  refine ⟨by norm_num, by norm_num, ?_, ?_⟩
  · rw [numFrames]
    have h30 : ⌈(1 : ℚ) * (2997 / 100)⌉ = 30 := by
      rw [Int.ceil_eq_iff]
      norm_num
    rw [h30]
    norm_num
  · rw [frameOffset, tdUs_2997, not_le]
    have hval : (((4 : ℕ) : ℤ) * 33367 : ℤ) = (133468 : ℤ) := by norm_num
    rw [hval]
    rw [abs_of_pos (by norm_num)]
    norm_num

/-- C4 (amended).  For every positive duration and fps: the loop emits
exactly `N = numFrames` frames with `duration × fps ≤ N < duration × fps + 1`
(the loop condition at line 145 multiplies, so the count does not drift),
but frame `i`'s start offset is `i` times the microsecond-quantized
interval, so it deviates from `i / fps` by exactly
`i × (tdUs/10⁶ − 1/fps)` — growing linearly in `i`, bounded by half a
microsecond per frame, and in general not within one microsecond (see the
counterexample). -/
theorem frame_timeline_spec (fps duration : ℚ) (hf : 0 < fps) (hd : 0 < duration) :
    duration * fps ≤ (numFrames fps duration : ℚ) ∧
      (numFrames fps duration : ℚ) < duration * fps + 1 ∧
      (∀ i : ℕ, ((i : ℚ) * (1 / fps) < duration ↔ i < numFrames fps duration)) ∧
      (∀ i : ℕ, frameOffset fps i - (i : ℚ) / fps
          = (i : ℚ) * ((tdUs fps : ℚ) / 1000000 - 1 / fps)) ∧
      (∀ i : ℕ, |frameOffset fps i - (i : ℚ) / fps| ≤ (i : ℚ) / 2000000) := by
  have hpos : (0 : ℚ) < duration * fps := mul_pos hd hf
  have hcnn : 0 ≤ ⌈duration * fps⌉ := Int.ceil_nonneg hpos.le
  have hcast : ((numFrames fps duration : ℕ) : ℚ) = ((⌈duration * fps⌉ : ℤ) : ℚ) := by
    rw [numFrames]
    exact_mod_cast congrArg (fun z : ℤ => (z : ℚ)) (Int.toNat_of_nonneg hcnn)
  have hoff : ∀ i : ℕ, frameOffset fps i - (i : ℚ) / fps
      = (i : ℚ) * ((tdUs fps : ℚ) / 1000000 - 1 / fps) := by
    intro i
    rw [frameOffset]
    push_cast
    ring
  refine ⟨?_, ?_, numFrames_loop_iff fps duration hf, hoff, ?_⟩
  · rw [hcast]
    exact Int.le_ceil _
  · rw [hcast]
    exact Int.ceil_lt_add_one _
  · intro i
    rw [hoff i, abs_mul, abs_of_nonneg (Nat.cast_nonneg i)]
    have hq : |(tdUs fps : ℚ) - 1 / fps * 1000000| ≤ 1 / 2 := by
      rw [tdUs]
      exact roundHalfEven_err _
    have he : (tdUs fps : ℚ) / 1000000 - 1 / fps
        = ((tdUs fps : ℚ) - 1 / fps * 1000000) / 1000000 := by ring
    rw [he, abs_div, abs_of_pos (by norm_num : (0 : ℚ) < 1000000)]
    calc (i : ℚ) * (|(tdUs fps : ℚ) - 1 / fps * 1000000| / 1000000)
        ≤ (i : ℚ) * ((1 / 2) / 1000000) := by
          apply mul_le_mul_of_nonneg_left _ (Nat.cast_nonneg i)
          exact div_le_div_of_nonneg_right hq (by norm_num)
      _ = (i : ℚ) / 2000000 := by ring

/-- C4 (amended) witness: at 1 fps and 2 s duration both hypotheses hold,
the frame count bound holds, and frame 3's offset error is within the
linear half-microsecond-per-frame bound. -/
theorem frame_timeline_spec_witness :
    (0 : ℚ) < 1 ∧ (0 : ℚ) < 2 ∧ (2 * 1 : ℚ) ≤ (numFrames 1 2 : ℚ) ∧
      |frameOffset 1 3 - (3 : ℚ) / 1| ≤ (3 : ℚ) / 2000000 :=
  ⟨by norm_num, by norm_num,
    (frame_timeline_spec 1 2 (by norm_num) (by norm_num)).1,
    (frame_timeline_spec 1 2 (by norm_num) (by norm_num)).2.2.2.2 3⟩

/-- Two frames are emitted for a 2-second video at 1 fps. -/
theorem numFrames_one_two : numFrames 1 2 = 2 := by
  rw [numFrames]
  have h2 : ⌈(2 : ℚ) * 1⌉ = 2 := by
    rw [Int.ceil_eq_iff]
    norm_num
  rw [h2]
  rfl

/-- C5.  The subtitle builder emits exactly one dialogue cue per frame of
the frame timeline, in frame-index order, and the cues are contiguous and
non-overlapping: each frame's end offset is the next frame's start offset
exactly (the same `timedelta` is added), so each cue's formatted end
timestamp equals the next cue's formatted start timestamp. -/
theorem generate_ass_cue_structure (dist : GpxPoint → GpxPoint → ℚ)
    (points : List GpxPoint) (start_time fps duration : ℚ) (units : String)
    (min_points : ℤ) :
    (generate_ass_events dist points start_time fps duration units min_points).length
        = numFrames fps duration ∧
      (∀ i : ℕ, frameEndOffset fps i = frameOffset fps (i + 1)) ∧
      ∀ i : ℕ,
        ∀ _ : i + 1 <
          (generate_ass_events dist points start_time fps duration units min_points).length,
        (generate_ass_events dist points start_time fps duration units min_points)[i + 1].startTs
          = (generate_ass_events dist points start_time fps duration units min_points)[i].endTs := by
  have hoffeq : ∀ i : ℕ, frameEndOffset fps i = frameOffset fps (i + 1) := by
    intro i
    rw [frameEndOffset, frameOffset]
    push_cast
    ring
  refine ⟨by simp [generate_ass_events], hoffeq, ?_⟩
  intro i h
  simp only [generate_ass_events, List.getElem_map, List.getElem_range, mkCue]
  exact congrArg format_ass_timestamp (hoffeq i).symm

/-- C5 witness: for a 2-second video at 1 fps the builder emits 2 cues and
the second cue starts exactly where the first one ends. -/
theorem generate_ass_cue_structure_witness :
    (generate_ass_events (fun _ _ => 0) [] 0 1 2 "km/h" 2).length = numFrames 1 2 ∧
      ((generate_ass_events (fun _ _ => 0) [] 0 1 2 "km/h" 2)[1]?).map Cue.startTs =
        ((generate_ass_events (fun _ _ => 0) [] 0 1 2 "km/h" 2)[0]?).map Cue.endTs := by
  have hc := generate_ass_cue_structure (fun _ _ => 0) [] 0 1 2 "km/h" 2
  have hlen : (generate_ass_events (fun _ _ => 0) [] 0 1 2 "km/h" 2).length = 2 := by
    rw [hc.1, numFrames_one_two]
  have h1 : 1 < (generate_ass_events (fun _ _ => 0) [] 0 1 2 "km/h" 2).length := by
    omega
  have h0 : 0 < (generate_ass_events (fun _ _ => 0) [] 0 1 2 "km/h" 2).length := by
    omega
  refine ⟨hc.1, ?_⟩
  rw [List.getElem?_eq_getElem h1, List.getElem?_eq_getElem h0]
  exact congrArg some (hc.2.2 0 h1)

/-- Division-remainder decomposition for the Python remainder. -/
theorem pymod_decomp (x d : ℚ) : d * (⌊x / d⌋ : ℚ) + pymod x d = x := by
  rw [pymod]
  ring

/-- C6 counterexample.  The claim asserts
`format(3725.07) == "1:02:05.06"`; the code truncates the exact
centisecond value 7 and prints `"1:02:05.07"` (the Python float nearest to
3725.07 lies slightly above it, so the float run agrees). -/
theorem format_counterexample :
    format_ass_timestamp (372507 / 100) ≠ "1:02:05.06" := by
  have h1 : fmtH (372507 / 100) = 1 := by norm_num [fmtH]
  have h2 : fmtM (372507 / 100) = 2 := by norm_num [fmtM, pymod]
  have h3 : fmtS (372507 / 100) = 5 := by norm_num [fmtS, pymod]
  have h4 : fmtCS (372507 / 100) = 7 := by norm_num [fmtCS, pymod]
  rw [format_ass_timestamp, h1, h2, h3, h4]
  decide

/-- C6 (amended).  For every nonnegative number of seconds the formatted
components are in range (`0 ≤ H`, `0 ≤ M,S < 60`, `0 ≤ CS < 100`, so
minutes/seconds/centiseconds are zero-padded to two digits and hours are
printed unpadded), and the represented value `H:MM:SS.CC` is the
truncation, not the rounding, of the input to centiseconds:
`H*3600 + M*60 + S + CS/100 ≤ seconds < H*3600 + M*60 + S + (CS+1)/100`.
In particular `format(3725.07) = "1:02:05.07"` (not `"1:02:05.06"`) and
`format(59.999) = "0:00:59.99"` (not `"0:01:00.00"`). -/
theorem format_ass_timestamp_spec (seconds : ℚ) (h : 0 ≤ seconds) :
    (0 ≤ fmtH seconds ∧ 0 ≤ fmtM seconds ∧ fmtM seconds < 60 ∧
        0 ≤ fmtS seconds ∧ fmtS seconds < 60 ∧
        0 ≤ fmtCS seconds ∧ fmtCS seconds < 100) ∧
      ((fmtH seconds : ℚ) * 3600 + (fmtM seconds : ℚ) * 60 + (fmtS seconds : ℚ)
          + (fmtCS seconds : ℚ) / 100 ≤ seconds) ∧
      (seconds < (fmtH seconds : ℚ) * 3600 + (fmtM seconds : ℚ) * 60
          + (fmtS seconds : ℚ) + ((fmtCS seconds : ℚ) + 1) / 100) ∧
      format_ass_timestamp (372507 / 100) = "1:02:05.07" ∧
      format_ass_timestamp (59999 / 1000) = "0:00:59.99" := by
  have hx0 : 0 ≤ pymod seconds 3600 := pymod_nonneg _ _ (by norm_num)
  have hx1 : pymod seconds 3600 < 3600 := pymod_lt _ _ (by norm_num)
  have hy0 : 0 ≤ pymod seconds 60 := pymod_nonneg _ _ (by norm_num)
  have hy1 : pymod seconds 60 < 60 := pymod_lt _ _ (by norm_num)
  have hf0 : 0 ≤ pymod seconds 1 := pymod_nonneg _ _ (by norm_num)
  have hf1 : pymod seconds 1 < 1 := pymod_lt _ _ (by norm_num)
  have hA1 : (3600 : ℚ) * (fmtH seconds : ℚ) + pymod seconds 3600 = seconds := by
    rw [fmtH]
    exact pymod_decomp seconds 3600
  have hA2 : (60 : ℚ) * (fmtM seconds : ℚ) + pymod (pymod seconds 3600) 60
      = pymod seconds 3600 := by
    rw [fmtM]
    exact pymod_decomp (pymod seconds 3600) 60
  have hA3 : pymod (pymod seconds 3600) 60 = pymod seconds 60 := by
    have h36 : (60 : ℚ) * ((60 : ℤ) : ℚ) = 3600 := by norm_num
    have h0 := pymod_pymod seconds 60 60 (by norm_num)
    rw [h36] at h0
    exact h0
  have hfr : Int.fract (pymod seconds 60) = pymod seconds 1 := by
    have hsub : pymod seconds 60 = seconds - ((60 * ⌊seconds / 60⌋ : ℤ) : ℚ) := by
      rw [pymod]
      push_cast
      ring
    rw [hsub, Int.fract_sub_int, pymod_one, Int.fract]
  have hA4 : (fmtS seconds : ℚ) + pymod seconds 1 = pymod seconds 60 := by
    rw [fmtS, ← hfr]
    exact Int.floor_add_fract (pymod seconds 60)
  have hA5 : (fmtCS seconds : ℚ) ≤ pymod seconds 1 * 100 := by
    rw [fmtCS]
    exact Int.floor_le _
  have hA6 : pymod seconds 1 * 100 < (fmtCS seconds : ℚ) + 1 := by
    rw [fmtCS]
    exact Int.lt_floor_add_one _
  have hc1 : fmtH (372507 / 100) = 1 := by norm_num [fmtH]
  have hc2 : fmtM (372507 / 100) = 2 := by norm_num [fmtM, pymod]
  have hc3 : fmtS (372507 / 100) = 5 := by norm_num [fmtS, pymod]
  have hc4 : fmtCS (372507 / 100) = 7 := by norm_num [fmtCS, pymod]
  have hd1 : fmtH (59999 / 1000) = 0 := by norm_num [fmtH]
  have hd2 : fmtM (59999 / 1000) = 0 := by norm_num [fmtM, pymod]
  have hd3 : fmtS (59999 / 1000) = 59 := by norm_num [fmtS, pymod]
  have hd4 : fmtCS (59999 / 1000) = 99 := by norm_num [fmtCS, pymod]
  refine ⟨⟨?_, ?_, ?_, ?_, ?_, ?_, ?_⟩, by linarith, by linarith, ?_, ?_⟩
  · exact Int.floor_nonneg.mpr (div_nonneg h (by norm_num))
  · exact Int.floor_nonneg.mpr (div_nonneg hx0 (by norm_num))
  · refine Int.floor_lt.mpr ?_
    rw [div_lt_iff₀ (by norm_num : (0 : ℚ) < 60)]
    push_cast
    linarith
  · exact Int.floor_nonneg.mpr hy0
  · refine Int.floor_lt.mpr ?_
    push_cast
    linarith
  · exact Int.floor_nonneg.mpr (mul_nonneg hf0 (by norm_num))
  · refine Int.floor_lt.mpr ?_
    push_cast
    nlinarith
  · rw [format_ass_timestamp, hc1, hc2, hc3, hc4]
    rfl
  · rw [format_ass_timestamp, hd1, hd2, hd3, hd4]
    rfl

/-- C6 (amended) witness: the hypothesis holds at 3725.07 seconds and the
formatted output is the truncated `"1:02:05.07"`. -/
theorem format_ass_timestamp_spec_witness :
    (0 : ℚ) ≤ 372507 / 100 ∧ format_ass_timestamp (372507 / 100) = "1:02:05.07" :=
  ⟨by norm_num, (format_ass_timestamp_spec (372507 / 100) (by norm_num)).2.2.2.1⟩
